import Mathlib

/-
Shallow embedding of the metropolitan frontend component (src/src/App.js).

The repository ships two near-duplicate variants of the component in the
same source sample.  Namespace V1 embeds the first variant (displays the
resized image, scale-aware line width and font, label clamped to the
surface); namespace V2 embeds the second variant (displays the original
image, fixed line width and font, label always drawn above the box).

Pixel geometry is modelled over the rationals: every quantity the claims
mention is produced by exact arithmetic on small values.  Assigning a
fractional value to canvas.width or canvas.height truncates it to an
integer (WebIDL unsigned long conversion), which for the nonnegative
values arising here is natural-number division.  Asynchronous effects
(promise resolution, the HTTP round trip) are modelled by passing the
outcome of each suspension point as an explicit argument.
-/

/-- One recognized object instance as parsed from the backend JSON.
Field names follow the source: box is the tuple (x1, y1, x2, y2) of pixel
coordinates of the displayed image, class_name is the category string,
confidence is a fractional score in [0, 1]. -/
structure Detection where
  box : ℚ × ℚ × ℚ × ℚ
  class_name : String
  confidence : ℚ
deriving DecidableEq

/-- The data of a browser File object, or of the raster behind an object
URL derived from it: name, MIME type and decoded pixel dimensions.  The
JPEG encoding quality (0.9 in variant 1, 0.8 in variant 2) does not
affect dimensions and is outside the model. -/
structure FileModel where
  name : String
  mime : String
  width : ℕ
  height : ℕ
deriving DecidableEq

/-- The pixel dimensions of a file model. -/
def dims (f : FileModel) : ℕ × ℕ := (f.width, f.height)

/-- The React state of the component.  predictions is an Option to model
the JS distinction between a real array (some) and undefined (none):
setPredictions(response.data.detections) stores undefined when the
detections field is missing from the response body. -/
structure AppState where
  imageSrc : Option FileModel
  predictions : Option (List Detection)
  loading : Bool
  isCameraOpen : Bool
deriving DecidableEq

/-- The component state right after mount: no image, empty prediction
list, not loading, camera closed. -/
def initialState : AppState :=
  { imageSrc := none, predictions := some [], loading := false, isCameraOpen := false }

/-- The body of an HTTP 2xx response as axios presents it in
response.data: a JSON null, a non-JSON text body (axios falls back to the
raw string), or a JSON object whose detections field is either present
(some list) or absent (none, i.e. undefined in JS). -/
inductive RespBody
  | jsNull
  | textBody (s : String)
  | jsonObj (detections : Option (List Detection))
deriving DecidableEq

/-- Reading response.data.detections: property access on null throws a
TypeError (modelled as error); on a string or on an object it yields the
field value, or undefined (none) when the field is absent. -/
def dataDetections : RespBody → Except Unit (Option (List Detection))
  | .jsNull => .error ()
  | .textBody _ => .ok none
  | .jsonObj d => .ok d

/-- Outcome of the axios POST: ok with the body of a 2xx response, or
fail for a network error, timeout, or non-2xx status (axios rejects the
promise in all of those cases). -/
inductive ApiOutcome
  | ok (data : RespBody)
  | fail
deriving DecidableEq

/-- Result of one sendImageToApi invocation: the final component state,
the multipart form fields that were posted, and how many alert dialogs
were shown during the call. -/
structure SendResult where
  state : AppState
  formData : List (String × FileModel)
  alerts : ℕ
deriving DecidableEq

/-- Result of one submission cycle (file pick or camera capture).
pending records the state at the point where the cycle stopped forever
because the resizeImage promise never settled; done carries the result
of the sendImageToApi call the cycle ended with. -/
inductive CycleResult
  | pending (s : AppState)
  | done (r : SendResult)
deriving DecidableEq

namespace CycleResult

/-- The raster displayed to the user at the end of the cycle. -/
def displayed : CycleResult → Option FileModel
  | .pending s => s.imageSrc
  | .done r => r.state.imageSrc

/-- The multipart fields posted to the backend (empty when the cycle
never reached the request). -/
def uploadedForm : CycleResult → List (String × FileModel)
  | .pending _ => []
  | .done r => r.formData

/-- The file uploaded to the backend, when a request was made. -/
def uploaded (c : CycleResult) : Option FileModel :=
  c.uploadedForm.head?.map Prod.snd

/-- The loading flag at the end of the cycle. -/
def finalLoading : CycleResult → Bool
  | .pending s => s.loading
  | .done r => r.state.loading

/-- Number of alert dialogs shown during the whole cycle. -/
def alertCount : CycleResult → ℕ
  | .pending _ => 0
  | .done r => r.alerts

end CycleResult

/-- The default maxWidth argument of resizeImage in both variants. -/
def defaultMaxWidth : ℕ := 640

/-- JS Number.toFixed(0) on a nonnegative number: the nearest integer,
with ties rounded to the larger value. -/
def jsToFixed0 (q : ℚ) : ℤ := ⌊q + 1 / 2⌋

/-- The percent part of a label, shared by both variants:
(confidence * 100).toFixed(0) followed by a percent sign. -/
def confidencePercent (q : ℚ) : String :=
  toString (jsToFixed0 (q * 100)) ++ "%"

/-- JS String.prototype.toUpperCase restricted to the ASCII range:
character-wise uppercasing of the string. -/
def jsToUpperCase (s : String) : String :=
  ⟨s.data.map Char.toUpper⟩

/-- One visible mark produced by a canvas 2d context call.  fillText
carries the font size in px that was current when the text was drawn. -/
inductive DrawCmd
  | fillRect (style : String) (x y w h : ℚ)
  | strokeRect (style : String) (lineWidth x y w h : ℚ)
  | fillText (style : String) (fontPx : ℚ) (text : String) (x y : ℚ)
deriving DecidableEq

/-- The drawing surface: its raster dimensions and its visible content.
A clearRect call covering the whole raster erases all content, which is
modelled by emptying the content list. -/
structure Canvas where
  width : ℕ
  height : ℕ
  cmds : List DrawCmd
deriving DecidableEq

namespace V1

/-- resizeImage (variant 1).  Decodes the file behind an object URL; on
load it draws the image on a canvas of width maxWidth and height
img.height * (maxWidth / img.width) and re-encodes it as image/jpeg at
quality 0.9.  Assigning the fractional height to canvas.height truncates
it, giving natural division (for img.width = 0 the JS quotient is
Infinity and the setter stores 0, which natural division also gives).
There is no onerror handler, so when the image cannot be decoded the
promise never settles: modelled by none. -/
def resizeImage (file : FileModel) (maxWidth : ℕ) (decodes : Bool) : Option FileModel :=
  if decodes then
    some { name := file.name, mime := "image/jpeg",
           width := maxWidth, height := file.height * maxWidth / file.width }
  else
    none

/-- sendImageToApi (variant 1).  Builds a FormData with the single field
named file, posts it, and on success stores response.data.detections in
the predictions state; any rejection (network error or non-2xx status)
or exception raised inside the try block is caught, logged, and reported
by one alert; the finally block always clears the loading flag.  alerts
counts the alert dialogs shown during this invocation. -/
def sendImageToApi (file : FileModel) (o : ApiOutcome) (s : AppState) : SendResult :=
  let formData := [("file", file)]
  match o with
  | .fail =>
      { state := { s with loading := false }, formData := formData, alerts := 1 }
  | .ok data =>
      match dataDetections data with
      | .error _ =>
          { state := { s with loading := false }, formData := formData, alerts := 1 }
      | .ok dets =>
          { state := { s with predictions := dets, loading := false },
            formData := formData, alerts := 0 }

/-- handleFileChange (variant 1).  With a chosen file: set loading,
clear the predictions, await resizeImage, then display the RESIZED file
through a fresh object URL and send that same resized file.  decodes
records whether the image decodes; o is the backend outcome. -/
def handleFileChange (file : FileModel) (decodes : Bool) (o : ApiOutcome)
    (s : AppState) : CycleResult :=
  let s1 := { s with loading := true, predictions := some ([] : List Detection) }
  match resizeImage file defaultMaxWidth decodes with
  | none => .pending s1
  | some resizedFile =>
      .done (sendImageToApi resizedFile o { s1 with imageSrc := some resizedFile })

/-- capture (variant 1).  Takes a webcam screenshot of the given
dimensions, closes the camera, sets loading, clears the predictions,
wraps the screenshot in a File named capture.jpg of type image/jpeg,
resizes it, displays the resized file and sends it. -/
def capture (shotW shotH : ℕ) (decodes : Bool) (o : ApiOutcome)
    (s : AppState) : CycleResult :=
  let s1 := { s with isCameraOpen := false, loading := true,
                     predictions := some ([] : List Detection) }
  let file : FileModel := { name := "capture.jpg", mime := "image/jpeg",
                            width := shotW, height := shotH }
  match resizeImage file defaultMaxWidth decodes with
  | none => .pending s1
  | some resizedFile =>
      .done (sendImageToApi resizedFile o { s1 with imageSrc := some resizedFile })

/-- scaleFactor (variant 1): Math.max(1, naturalWidth / 600). -/
def scaleFactor (w : ℚ) : ℚ := max 1 (w / 600)

/-- lineWidth (variant 1): Math.max(3, 4 * scaleFactor). -/
def lineWidth (w : ℚ) : ℚ := max 3 (4 * scaleFactor w)

/-- fontSize (variant 1): Math.max(14, 20 * scaleFactor). -/
def fontSize (w : ℚ) : ℚ := max 14 (20 * scaleFactor w)

/-- padding (variant 1): 6 * scaleFactor. -/
def padding (w : ℚ) : ℚ := 6 * scaleFactor w

/-- The label string (variant 1): the uppercased class name, one space,
and the confidence as a rounded integer percentage. -/
def labelText (p : Detection) : String :=
  jsToUpperCase p.class_name ++ " " ++ confidencePercent p.confidence

/-- labelY (variant 1).  textHeight is fontSize * 1.2; the label
background sits immediately above the box (at y1 - textHeight) when
y1 - textHeight is positive, and at y1, inside the box, otherwise. -/
def labelY (fontPx y1 : ℚ) : ℚ :=
  if y1 - fontPx * 1.2 > 0 then y1 - fontPx * 1.2 else y1

/-- The four context calls one prediction produces in the variant 1 draw
pass: translucent fill, scale-aware stroke, label background at labelY,
and the label text.  measure models ctx.measureText under the font size
that is current at the call, which variant 1 sets before measuring. -/
def drawPred (measure : ℚ → String → ℚ) (lw fs pad : ℚ) (p : Detection) : List DrawCmd :=
  let (x1, y1, x2, y2) := p.box
  let text := labelText p
  let textWidth := measure fs text
  let textHeight := fs * 1.2
  let lY := labelY fs y1
  [ .fillRect "rgba(0, 180, 255, 0.2)" x1 y1 (x2 - x1) (y2 - y1),
    .strokeRect "#00b4ff" lw x1 y1 (x2 - x1) (y2 - y1),
    .fillRect "#00b4ff" x1 lY (textWidth + pad * 2) textHeight,
    .fillText "#FFFFFF" fs text (x1 + pad) (lY + pad / 2) ]

/-- The draw effect (variant 1).  With a displayed image of known
natural size and a nonempty prediction list, the canvas raster is set to
the natural size, fully cleared, and every prediction is drawn in list
order; in every other case the canvas content is cleared in place by a
clearRect covering the whole raster. -/
def drawEffect (measure : ℚ → String → ℚ) (img : Option (ℕ × ℕ)) (c : Canvas)
    (preds : List Detection) : Canvas :=
  match img, preds with
  | some (nw, nh), p :: ps =>
      { width := nw, height := nh,
        cmds := ((p :: ps).map (drawPred measure (lineWidth (nw : ℚ))
                  (fontSize (nw : ℚ)) (padding (nw : ℚ)))).flatten }
  | _, _ => { c with cmds := [] }

end V1

namespace V2

/-- resizeImage (variant 2): identical dimension logic to variant 1, the
only difference in the source is the JPEG quality constant 0.8.  No
onerror handler either, so a decode failure leaves the promise pending
forever (none). -/
def resizeImage (file : FileModel) (maxWidth : ℕ) (decodes : Bool) : Option FileModel :=
  if decodes then
    some { name := file.name, mime := "image/jpeg",
           width := maxWidth, height := file.height * maxWidth / file.width }
  else
    none

/-- sendImageToApi (variant 2).  Sets loading at entry, posts the single
file field, stores response.data.detections on success, alerts once on
any caught rejection or exception, and always clears loading in the
finally block. -/
def sendImageToApi (file : FileModel) (o : ApiOutcome) (s : AppState) : SendResult :=
  let s1 := { s with loading := true }
  let formData := [("file", file)]
  match o with
  | .fail =>
      { state := { s1 with loading := false }, formData := formData, alerts := 1 }
  | .ok data =>
      match dataDetections data with
      | .error _ =>
          { state := { s1 with loading := false }, formData := formData, alerts := 1 }
      | .ok dets =>
          { state := { s1 with predictions := dets, loading := false },
            formData := formData, alerts := 0 }

/-- handleFileChange (variant 2).  Displays the ORIGINAL file through an
object URL before resizing, clears the predictions, then resizes and
sends the resized file. -/
def handleFileChange (file : FileModel) (decodes : Bool) (o : ApiOutcome)
    (s : AppState) : CycleResult :=
  let s1 := { s with imageSrc := some file, predictions := some ([] : List Detection) }
  match resizeImage file defaultMaxWidth decodes with
  | none => .pending s1
  | some resizedFile => .done (sendImageToApi resizedFile o s1)

/-- capture (variant 2).  Displays the raw screenshot, closes the
camera, clears the predictions, wraps the screenshot in a File named
capture.jpg, then resizes and sends it. -/
def capture (shotW shotH : ℕ) (decodes : Bool) (o : ApiOutcome)
    (s : AppState) : CycleResult :=
  let shot : FileModel := { name := "capture.jpg", mime := "image/jpeg",
                            width := shotW, height := shotH }
  let s1 := { s with imageSrc := some shot, isCameraOpen := false,
                     predictions := some ([] : List Detection) }
  match resizeImage shot defaultMaxWidth decodes with
  | none => .pending s1
  | some resizedFile => .done (sendImageToApi resizedFile o s1)

/-- The label string (variant 2): the class name is NOT uppercased. -/
def labelText (p : Detection) : String :=
  p.class_name ++ " " ++ confidencePercent p.confidence

/-- The context calls of the variant 2 draw loop.  fontPx is the context
font size at loop entry; measureText runs BEFORE ctx.font is set to the
18px font, so the first iteration measures under the context default of
10px and later iterations under 18px.  The stroke uses the fixed line
width 4, and the label background is always drawn 25px above y1 with no
room check. -/
def drawPreds (measure : ℚ → String → ℚ) (fontPx : ℚ) : List Detection → List DrawCmd
  | [] => []
  | p :: ps =>
      let (x1, y1, x2, y2) := p.box
      let text := labelText p
      let textWidth := measure fontPx text
      [ .strokeRect "#00FF00" 4 x1 y1 (x2 - x1) (y2 - y1),
        .fillRect "#00FF00" x1 (y1 - 25) (textWidth + 10) 25,
        .fillText "#000000" 18 text (x1 + 5) (y1 - 7) ]
      ++ drawPreds measure 18 ps

/-- The draw effect (variant 2): canvas sized to the image natural size,
cleared, then the loop above; fixed line width and font, no dependence
on the image natural width.  With no image or no predictions the canvas
content is cleared in place. -/
def drawEffect (measure : ℚ → String → ℚ) (img : Option (ℕ × ℕ)) (c : Canvas)
    (preds : List Detection) : Canvas :=
  match img, preds with
  | some (nw, nh), p :: ps =>
      { width := nw, height := nh, cmds := drawPreds measure 10 (p :: ps) }
  | _, _ => { c with cmds := [] }

end V2

/-- A sample 640 by 480 JPEG file. -/
def someFile : FileModel :=
  { name := "a.jpg", mime := "image/jpeg", width := 640, height := 480 }

/-- A sample 1200 by 800 source photo. -/
def photoFile : FileModel :=
  { name := "photo.jpg", mime := "image/jpeg", width := 1200, height := 800 }

/-- A measurement function for concrete evaluations: every text measures
to width zero. -/
def measureZero : ℚ → String → ℚ := fun _ _ => 0

/-- The detection of the round-trip scenario of the spec. -/
def samplePred : Detection :=
  { box := (100, 100, 300, 400), class_name := "box", confidence := 0.87 }

/-- A detection whose box touches the top edge of the surface. -/
def topPred : Detection :=
  { box := (50, 0, 150, 100), class_name := "box", confidence := 0.9 }

/-- An empty canvas. -/
def canvas0 : Canvas := { width := 0, height := 0, cmds := [] }

/-- Evaluation of the shared percent formatting at confidence 0.87:
87.5 is truncated down, giving 87 percent. -/
theorem confidencePercent_087 : confidencePercent (0.87 : ℚ) = "87%" := by
  have h87 : jsToFixed0 ((0.87 : ℚ) * 100) = 87 := by
    norm_num [jsToFixed0]
  unfold confidencePercent
  rw [h87]
  decide

/-- C1: in variant 1 every submission (file pick or camera capture)
displays and uploads the very same resized file, so the displayed and
uploaded rasters have identical pixel dimensions; but in variant 2 a
file submission of a 1200 by 800 photo displays the original 1200 by
800 raster while uploading the 640 by 426 resized file, reproducing
exactly the defect pattern the spec says must not be reproduced. -/
theorem C1_display_upload_dims :
    (∀ (f : FileModel) (o : ApiOutcome) (s : AppState),
      (V1.handleFileChange f true o s).displayed
        = (V1.handleFileChange f true o s).uploaded)
  ∧ (∀ (w h : ℕ) (o : ApiOutcome) (s : AppState),
      (V1.capture w h true o s).displayed
        = (V1.capture w h true o s).uploaded)
  ∧ ((V2.handleFileChange photoFile true .fail initialState).displayed).map dims
      = some (1200, 800)
  ∧ ((V2.handleFileChange photoFile true .fail initialState).uploaded).map dims
      = some (640, 426) := by
  refine ⟨fun f o s => ?_, fun w h o s => ?_, by decide, by decide⟩
  · rcases o with (_ | t | d) | _ <;> rfl
  · rcases o with (_ | t | d) | _ <;> rfl

/-- C2: for a source of width W greater than zero and height H and a
target width T, both resizeImage variants output a raster of width
exactly T whose height is the truncation of H * (T / W), hence within
distance one of the exact uniform-scale height. -/
theorem C2_resize_dims (nm mi : String) (W H T : ℕ) (hW : 0 < W) :
    V1.resizeImage ⟨nm, mi, W, H⟩ T true
      = some ⟨nm, "image/jpeg", T, H * T / W⟩
  ∧ V2.resizeImage ⟨nm, mi, W, H⟩ T true
      = some ⟨nm, "image/jpeg", T, H * T / W⟩
  ∧ |((H * T / W : ℕ) : ℚ) - (H : ℚ) * T / W| < 1 := by
  refine ⟨rfl, rfl, ?_⟩
  have hW0 : (0 : ℚ) < (W : ℚ) := by exact_mod_cast hW
  have hle : ((H * T / W : ℕ) : ℚ) ≤ (H : ℚ) * T / W := by
    rw [le_div_iff₀ hW0]
    exact_mod_cast Nat.div_mul_le_self (H * T) W
  have hlt : (H : ℚ) * T / W < ((H * T / W : ℕ) : ℚ) + 1 := by
    rw [div_lt_iff₀ hW0, mul_comm _ (W : ℚ)]
    exact_mod_cast Nat.lt_mul_div_succ (H * T) hW
  rw [abs_lt]
  constructor <;> linarith

/-- C2 witness: a 1200 by 800 source at target width 640 resizes to
exactly 640 by 426. -/
theorem C2_resize_dims_witness :
    V1.resizeImage ⟨"photo.jpg", "image/jpeg", 1200, 800⟩ 640 true
      = some ⟨"photo.jpg", "image/jpeg", 640, 426⟩ := by
  have h := (C2_resize_dims "photo.jpg" "image/jpeg" 1200 800 640 (by norm_num)).1
  simpa using h

/-- C3: on every outcome of the detect call, success, backend failure
or exception while reading the body, the loading flag ends false, in
both variants, and a full variant 1 cycle that reaches the request also
ends with loading false. -/
theorem C3_loading_cleared (f : FileModel) (o : ApiOutcome) (s : AppState) (w h : ℕ) :
    (V1.sendImageToApi f o s).state.loading = false
  ∧ (V2.sendImageToApi f o s).state.loading = false
  ∧ (V1.handleFileChange f true o s).finalLoading = false
  ∧ (V1.capture w h true o s).finalLoading = false := by
  rcases o with (_ | t | d) | _ <;> exact ⟨rfl, rfl, rfl, rfl⟩

/-- C4 counterexample: a 2xx response whose JSON object lacks a usable
detections list produces NO user-facing failure signal (zero alert
calls) and stores the undefined field value in the predictions state,
in both variants, contradicting the claim. -/
theorem C4_cex_missing_detections :
    (V1.sendImageToApi someFile (.ok (.jsonObj none)) initialState).alerts = 0
  ∧ (V1.sendImageToApi someFile (.ok (.jsonObj none)) initialState).state.predictions = none
  ∧ (V2.sendImageToApi someFile (.ok (.jsonObj none)) initialState).alerts = 0 :=
  ⟨rfl, rfl, rfl⟩

/-- C4 amended: network errors and non-2xx statuses, and a 2xx response
with a null body (whose property access throws inside the try block),
are each reported by exactly one alert and leave the detection list
unchanged; but a 2xx response whose body merely lacks a detections
array (a plain object without the field, or a non-JSON text body) is
stored verbatim as undefined with no failure signal; a well-formed
response stores its list verbatim. -/
theorem C4_failure_paths (f : FileModel) (s : AppState) (t : String) :
    (V1.sendImageToApi f .fail s).alerts = 1
  ∧ (V1.sendImageToApi f .fail s).state.predictions = s.predictions
  ∧ (V1.sendImageToApi f (.ok .jsNull) s).alerts = 1
  ∧ (V1.sendImageToApi f (.ok .jsNull) s).state.predictions = s.predictions
  ∧ (V1.sendImageToApi f (.ok (.jsonObj none)) s).alerts = 0
  ∧ (V1.sendImageToApi f (.ok (.jsonObj none)) s).state.predictions = none
  ∧ (V1.sendImageToApi f (.ok (.textBody t)) s).alerts = 0
  ∧ (V1.sendImageToApi f (.ok (.textBody t)) s).state.predictions = none
  ∧ (∀ dets : List Detection,
      (V1.sendImageToApi f (.ok (.jsonObj (some dets))) s).alerts = 0
    ∧ (V1.sendImageToApi f (.ok (.jsonObj (some dets))) s).state.predictions = some dets)
  ∧ (V2.sendImageToApi f .fail s).alerts = 1
  ∧ (V2.sendImageToApi f .fail s).state.predictions = s.predictions
  ∧ (V2.sendImageToApi f (.ok (.jsonObj none)) s).alerts = 0
  ∧ (V2.sendImageToApi f (.ok (.jsonObj none)) s).state.predictions = none :=
  ⟨rfl, rfl, rfl, rfl, rfl, rfl, rfl, rfl, fun _ => ⟨rfl, rfl⟩, rfl, rfl, rfl, rfl⟩

/-- C5: when the source image cannot be decoded, both resizeImage
variants leave their promise pending forever because no onerror handler
exists; the cycle stops silently with zero alert dialogs, no upload,
and, in variant 1, the loading flag stuck at true, contradicting the
claim that the failure is surfaced as a user-visible message. -/
theorem C5_decode_failure_silent :
    V1.handleFileChange someFile false .fail initialState
      = .pending { initialState with loading := true, predictions := some [] }
  ∧ (V1.handleFileChange someFile false .fail initialState).alertCount = 0
  ∧ (V1.handleFileChange someFile false .fail initialState).finalLoading = true
  ∧ (V1.handleFileChange someFile false .fail initialState).uploadedForm = []
  ∧ (V2.handleFileChange someFile false .fail initialState).alertCount = 0
  ∧ (V2.handleFileChange someFile false .fail initialState).uploadedForm = [] :=
  ⟨rfl, rfl, rfl, rfl, rfl, rfl⟩

/-- C6: rendering with an empty detection list empties the surface
content (the clearRect call covers the whole raster) and draws nothing,
whatever was on the canvas before, in both variants. -/
theorem C6_clear_on_empty (m : ℚ → String → ℚ) (img : Option (ℕ × ℕ)) (c : Canvas) :
    (V1.drawEffect m img c []).cmds = [] ∧ (V2.drawEffect m img c []).cmds = [] := by
  rcases img with _ | ⟨nw, nh⟩ <;> exact ⟨rfl, rfl⟩

/-- C7 amended: in variant 1 the label background of every detection is
drawn at labelY, which is immediately above the top edge (y1 minus the
text height fontSize * 1.2) when there is room, and at y1, inside the
box, otherwise; in particular a box with y1 = 0 gets its label at the
top edge inside the box, and for boxes starting inside the surface the
label never extends above the surface top.  Variant 2 lacks the room
check (see the counterexample). -/
theorem C7_label_placement (m : ℚ → String → ℚ) (lw fs pad x1 y1 x2 y2 : ℚ)
    (cn : String) (q : ℚ) :
    (V1.drawPred m lw fs pad ⟨(x1, y1, x2, y2), cn, q⟩).get? 2
      = some (.fillRect "#00b4ff" x1 (V1.labelY fs y1)
          (m fs (V1.labelText ⟨(x1, y1, x2, y2), cn, q⟩) + pad * 2) (fs * 1.2))
  ∧ (fs * 1.2 < y1 → V1.labelY fs y1 = y1 - fs * 1.2)
  ∧ (y1 ≤ fs * 1.2 → V1.labelY fs y1 = y1)
  ∧ (0 ≤ fs → V1.labelY fs 0 = 0)
  ∧ (0 ≤ y1 → 0 ≤ V1.labelY fs y1) := by
  refine ⟨rfl, ?_, ?_, ?_, ?_⟩
  · intro hlt
    have h : y1 - fs * 1.2 > 0 := by linarith
    simp [V1.labelY, h]
  · intro hle
    have h : ¬ (y1 - fs * 1.2 > 0) := by linarith
    simp [V1.labelY, h]
  · intro hfs
    have h12 : (0 : ℚ) ≤ fs * 1.2 := mul_nonneg hfs (by norm_num)
    have h : ¬ ((0 : ℚ) - fs * 1.2 > 0) := by linarith
    simp only [V1.labelY]
    rw [if_neg h]
  · intro hy
    by_cases h : y1 - fs * 1.2 > 0
    · have := h
      simp only [V1.labelY, if_pos h]
      linarith
    · simp only [V1.labelY, if_neg h]
      exact hy

/-- C7 witness: with a 14px font, a box top at 100 puts the label
immediately above, a box top at 10 puts it inside, and a box top at 0
puts it at the top edge inside the box. -/
theorem C7_label_placement_witness :
    V1.labelY 14 100 = 100 - 14 * 1.2
  ∧ V1.labelY 14 10 = 10
  ∧ V1.labelY 14 0 = 0 :=
  ⟨(C7_label_placement measureZero 1 14 1 0 100 0 0 "box" 0).2.1 (by norm_num),
   (C7_label_placement measureZero 1 14 1 0 10 0 0 "box" 0).2.2.1 (by norm_num),
   (C7_label_placement measureZero 1 14 1 0 0 0 0 "box" 0).2.2.2.1 (by norm_num)⟩

/-- C7 counterexample: in variant 2 a detection with y1 = 0 gets its
label background drawn at y = -25, above the surface top, so the label
is clipped off the surface instead of being placed inside the box. -/
theorem C7_cex_label_offscreen :
    (V2.drawPreds measureZero 10 [topPred]).get? 1
      = some (.fillRect "#00FF00" 50 (-25) 10 25)
  ∧ ((-25 : ℚ) < 0) := by
  constructor
  · norm_num [V2.drawPreds, V2.labelText, topPred, measureZero]
  · norm_num

/-- C8 amended: variant 1 uses the scale-aware formulas of the claim
(scaleFactor = max 1 of width over 600, lineWidth = max 3 of
4 * scaleFactor, fontSize = max 14 of 20 * scaleFactor); both are
monotonically non-decreasing in the natural width, never fall below
their minimums, and are strictly larger at width 3000 than at width
300.  Variant 2 instead uses a fixed line width and font (see the
counterexample). -/
theorem C8_scale_aware (w v : ℚ) (hwv : w ≤ v) :
    V1.scaleFactor w = max 1 (w / 600)
  ∧ V1.lineWidth w = max 3 (4 * V1.scaleFactor w)
  ∧ V1.fontSize w = max 14 (20 * V1.scaleFactor w)
  ∧ V1.lineWidth w ≤ V1.lineWidth v
  ∧ V1.fontSize w ≤ V1.fontSize v
  ∧ 3 ≤ V1.lineWidth w
  ∧ 14 ≤ V1.fontSize w
  ∧ V1.lineWidth 300 < V1.lineWidth 3000
  ∧ V1.fontSize 300 < V1.fontSize 3000 := by
  have hdiv : w / 600 ≤ v / 600 := by linarith
  have hsf : V1.scaleFactor w ≤ V1.scaleFactor v := max_le_max le_rfl hdiv
  refine ⟨rfl, rfl, rfl, ?_, ?_, le_max_left _ _, le_max_left _ _,
    by norm_num [V1.lineWidth, V1.scaleFactor, max_def],
    by norm_num [V1.fontSize, V1.scaleFactor, max_def]⟩
  · exact max_le_max le_rfl (by linarith)
  · exact max_le_max le_rfl (by linarith)

/-- C8 witness: at natural widths 100 and 200 the variant 1 line width
is monotone and at least its minimum 3. -/
theorem C8_scale_aware_witness :
    V1.lineWidth 100 ≤ V1.lineWidth 200 ∧ 3 ≤ V1.lineWidth 100 :=
  ⟨(C8_scale_aware 100 200 (by norm_num)).2.2.2.1,
   (C8_scale_aware 100 200 (by norm_num)).2.2.2.2.2.1⟩

/-- C8 counterexample: the variant 2 draw pass emits identical commands
for an image of natural width 3000 and one of natural width 300, with
the fixed line width 4 and the fixed 18px font, so at 3000px neither is
strictly larger than at 300px. -/
theorem C8_cex_fixed_style :
    (V2.drawEffect measureZero (some (3000, 2000)) canvas0 [samplePred]).cmds
      = (V2.drawEffect measureZero (some (300, 200)) canvas0 [samplePred]).cmds
  ∧ (V2.drawEffect measureZero (some (3000, 2000)) canvas0 [samplePred]).cmds.get? 0
      = some (.strokeRect "#00FF00" 4 100 100 200 300)
  ∧ (V2.drawEffect measureZero (some (3000, 2000)) canvas0 [samplePred]).cmds.get? 2
      = some (.fillText "#000000" 18 (V2.labelText samplePred) 105 93) := by
  refine ⟨rfl, ?_, ?_⟩
  · norm_num [V2.drawEffect, V2.drawPreds, samplePred, measureZero]
  · norm_num [V2.drawEffect, V2.drawPreds, samplePred, measureZero]

/-- C9 amended: in variant 1 the rendered label string is the
uppercased class name, one space, and the confidence rounded to an
integer percentage with a trailing percent sign, and it is drawn by the
fillText command of the draw pass; for class_name box with confidence
0.87 it reads BOX 87 percent.  Variant 2 does not uppercase (see the
counterexample). -/
theorem C9_label_format (m : ℚ → String → ℚ) (lw fs pad x1 y1 x2 y2 : ℚ)
    (cn : String) (q : ℚ) :
    V1.labelText ⟨(x1, y1, x2, y2), cn, q⟩
      = jsToUpperCase cn ++ " " ++ (toString (jsToFixed0 (q * 100)) ++ "%")
  ∧ (V1.drawPred m lw fs pad ⟨(x1, y1, x2, y2), cn, q⟩).get? 3
      = some (.fillText "#FFFFFF" fs (V1.labelText ⟨(x1, y1, x2, y2), cn, q⟩)
          (x1 + pad) (V1.labelY fs y1 + pad / 2))
  ∧ V1.labelText samplePred = "BOX 87%" := by
  refine ⟨rfl, rfl, ?_⟩
  simp only [V1.labelText, samplePred]
  rw [confidencePercent_087]
  decide

/-- C9 counterexample: variant 2 renders the label of the sample
detection (class_name box, confidence 0.87) as the non-uppercased
string box 87 percent, not BOX 87 percent as the claim states. -/
theorem C9_cex_lowercase :
    (V2.drawPreds measureZero 10 [samplePred]).get? 2
      = some (.fillText "#000000" 18 (V2.labelText samplePred) 105 93)
  ∧ V2.labelText samplePred = "box 87%"
  ∧ V2.labelText samplePred ≠ "BOX 87%" := by
  have hlab : V2.labelText samplePred = "box 87%" := by
    simp only [V2.labelText, samplePred]
    rw [confidencePercent_087]
    decide
  refine ⟨?_, hlab, by rw [hlab]; decide⟩
  norm_num [V2.drawPreds, samplePred, measureZero]

/-- C10: in both variants, for file picks and camera captures, the
posted multipart body holds exactly one field, named file, whose value
is the resized image; it carries the original file name (capture.jpg
for captures) and the MIME type image/jpeg. -/
theorem C10_upload_single_field (f : FileModel) (o : ApiOutcome) (s : AppState) (w h : ℕ) :
    (V1.handleFileChange f true o s).uploadedForm
      = [("file", { name := f.name, mime := "image/jpeg", width := 640,
                    height := f.height * 640 / f.width })]
  ∧ (V1.capture w h true o s).uploadedForm
      = [("file", { name := "capture.jpg", mime := "image/jpeg", width := 640,
                    height := h * 640 / w })]
  ∧ (V2.handleFileChange f true o s).uploadedForm
      = [("file", { name := f.name, mime := "image/jpeg", width := 640,
                    height := f.height * 640 / f.width })]
  ∧ (V2.capture w h true o s).uploadedForm
      = [("file", { name := "capture.jpg", mime := "image/jpeg", width := 640,
                    height := h * 640 / w })] := by
  rcases o with (_ | t | d) | _ <;> exact ⟨rfl, rfl, rfl, rfl⟩
